import Mathlib

/-!
# FinStock ledger replay engine — verification development

A shallow embedding, in Lean 4, of the moving-average costing core of the
FinStock repository:

* `processTransaction` (src/unnamed/part_003, lines 340–386) — the single-step
  transition of the ledger replay,
* the replay fold of `recomputeAggregates` (part_003, lines 274–334),
* `recomputeAllAggregates` (part_003, lines 161–177),
* `getStockAggregates` (part_003, lines 388–394),
* the per-instrument replay and date-bucket accumulation of the `daywise`
  report (src/server/routes/reports.ts, lines 13–106).

## Numeric model

The source performs its ledger arithmetic with `decimal.js` `Decimal` values
under the default configuration (the repo never calls `Decimal.set`): every
arithmetic result is rounded to 20 significant digits with `ROUND_HALF_UP`.
We embed `Decimal` values as exact rationals `ℚ` and that rounding as
`roundSig20`; `dadd`, `dsub`, `dmul` and `ddiv` below are the rounded `plus`,
`minus`, `times` and `dividedBy`, and `processTransactionD` is the transition
of part_003 lines 340–386 under this fully rounded arithmetic — the reference
model, and the one the accumulation-sensitive conservation claim (C6) is
settled against: the rounding of *sums* is observable there (a residual like
`10⁻¹⁸` absorbed into a later BUY amount).  Alongside it, `processTransaction`
embeds the same source function with `plus`/`minus`/`times` exact and only
`dividedBy` rounded: the two models coincide on every trace whose sums and
products stay within 20 significant digits, and the claims stated over it
either equate expressions built from the same primitives on both sides
(transition-rule equality, report/ledger replay equivalence, oversell
permissiveness, DIVIDEND frame) or evaluate concrete traces (the null-quantity
folds, the sell-all residual) in which every sum and product stays within 20
significant digits, where the exact-operation model agrees with `decimal.js`
digit for digit.  (`dividedBy` is only ever reached by the source behind an
`isZero` guard on the denominator; `ddiv` totalises the 0-denominator case as
0, which that guard makes unobservable.)

The `daywise` report additionally converts some decimals to IEEE-754 binary64
values via JavaScript `parseFloat` / `number` addition; `fl` below embeds the
binary64 rounding (round to 53-bit significand, nearest, ties to even) of a
real number, as an exact rational.  Overflow and subnormal behaviour at
magnitudes beyond `10^300` / below `10^-300` are irrelevant for the database
value range and are not modelled.

Dates: the source stores `effectiveDate` as a `YYYY-MM-DD` string and compares
dates by string comparison, which on that fixed format coincides with
chronological order; we encode dates as `ℕ` with the usual order.  Fields the
replay engines never read (`unitPrice`, `notes`, row `id`, `updatedAt`) are
omitted from the embedded record; `createdAt` is the insertion-sequence
tie-break used in every `ORDER BY`.
-/

/-- Transaction kind: column `type` of the `transactions` table.  The spec
calls `DIVIDEND` "INCOME". -/
inductive TxnType where
  | BUY : TxnType
  | SELL : TxnType
  | DIVIDEND : TxnType
deriving DecidableEq, Repr

/-- One row of the `transactions` table, restricted to the fields the replay
engines read.  `quantity` is nullable (`none` ↔ SQL `NULL`); `date` is the
effective date, `createdAt` the insertion-sequence tie-break. -/
structure Txn where
  stockId : ℕ
  type : TxnType
  date : ℕ
  quantity : Option ℚ
  totalAmount : ℚ
  createdAt : ℕ
deriving DecidableEq, Repr

/-- The state threaded through the replay fold (the spec's `ReplayState`),
exactly the four `Decimal` fields of the source's `state` object. -/
structure ReplayState where
  totalShares : ℚ
  totalInvested : ℚ
  avgCost : ℚ
  realizedProfit : ℚ
deriving DecidableEq, Repr

/-- Scale a positive rational into the interval `[1, 10)`, returning the
scaled value together with the base-10 exponent taken out; fuel-bounded
recursion (fuel 2000 covers exponents far beyond anything the
`DECIMAL(18,_)` columns can produce).  The returned pair `(a', e')` satisfies
`a * 10 ^ e = a' * 10 ^ e'` whenever the fuel suffices. -/
def decExpAux (fuel : ℕ) (a : ℚ) (e : ℤ) : ℚ × ℤ :=
  if fuel = 0 then (a, e)
  else if a < 1 then decExpAux (fuel - 1) (a * 10) (e - 1)
  else if 10 ≤ a then decExpAux (fuel - 1) (a / 10) (e + 1)
  else (a, e)
termination_by fuel
decreasing_by all_goals omega

/-- Round a rational to 20 significant decimal digits, half away from zero:
the rounding `decimal.js` applies to every arithmetic result under its default
configuration (`precision = 20`, `rounding = ROUND_HALF_UP`). -/
def roundSig20 (q : ℚ) : ℚ :=
  if q = 0 then 0
  else
    let s : ℚ := if q < 0 then -1 else 1
    let p := decExpAux 2000 |q| 0
    let m : ℤ := ⌊p.1 * 10 ^ (19 : ℕ) + 1 / 2⌋
    s * (m : ℚ) * (10 : ℚ) ^ (p.2 - 19)

/-- Embedding of `Decimal.dividedBy`: the exact quotient rounded to 20 significant digits
(see the numeric-model note above).  The source only divides behind an
`isZero` guard on the denominator; the 0-denominator case is totalised as 0. -/
def ddiv (x y : ℚ) : ℚ :=
  if y = 0 then 0 else roundSig20 (x / y)

/-- Embedding of `Decimal.plus`: the exact sum rounded to 20 significant
digits, as `decimal.js` rounds every arithmetic result. -/
def dadd (x y : ℚ) : ℚ := roundSig20 (x + y)

/-- Embedding of `Decimal.minus`: the exact difference rounded to 20
significant digits. -/
def dsub (x y : ℚ) : ℚ := roundSig20 (x - y)

/-- Embedding of `Decimal.times`: the exact product rounded to 20 significant
digits. -/
def dmul (x y : ℚ) : ℚ := roundSig20 (x * y)

/-- Embedding of `processTransaction` (src/unnamed/part_003, lines 340–386), the
single-step transition of the ledger replay, embedded clause for clause:
a `null` quantity is coerced to 0 (`txn.quantity ? new Decimal(txn.quantity)
: new Decimal(0)`), BUY and SELL reset `avgCost` to 0 behind the
`newTotalShares.isZero()` ternary, DIVIDEND only adds to `realizedProfit`. -/
def processTransaction (state : ReplayState) (txn : Txn) : ReplayState :=
  let quantity : ℚ := txn.quantity.getD 0
  let totalAmount : ℚ := txn.totalAmount
  match txn.type with
  | TxnType.BUY =>
    let newTotalShares := state.totalShares + quantity
    let newTotalInvested := state.totalInvested + totalAmount
    let newAvgCost := if newTotalShares = 0 then 0 else ddiv newTotalInvested newTotalShares
    { state with
        totalShares := newTotalShares
        totalInvested := newTotalInvested
        avgCost := newAvgCost }
  | TxnType.SELL =>
    let costRemoved := state.avgCost * quantity
    let proceeds := totalAmount
    let realizedProfitThisTxn := proceeds - costRemoved
    let newTotalShares := state.totalShares - quantity
    let newTotalInvested := state.totalInvested - costRemoved
    let newAvgCost := if newTotalShares = 0 then 0 else ddiv newTotalInvested newTotalShares
    { totalShares := newTotalShares
      totalInvested := newTotalInvested
      avgCost := newAvgCost
      realizedProfit := state.realizedProfit + realizedProfitThisTxn }
  | TxnType.DIVIDEND =>
    { state with realizedProfit := state.realizedProfit + totalAmount }

/-- The zero state `{0, 0, 0, 0}` every replay starts from
(src/unnamed/part_003, lines 288–293). -/
def zeroState : ReplayState :=
  { totalShares := 0, totalInvested := 0, avgCost := 0, realizedProfit := 0 }

/-- The replay fold of `recomputeAggregates` (src/unnamed/part_003, lines
295–299): fold `processTransaction` over the date/insertion-ordered
transaction list, starting from `zeroState`. -/
def ledgerFold (txns : List Txn) : ReplayState :=
  txns.foldl processTransaction zeroState

/-- Embedding of `processTransaction` (src/unnamed/part_003, lines 340–386)
under the fully rounded `decimal.js` arithmetic: identical to
`processTransaction` above except that every `plus`/`minus`/`times` is the
rounded `dadd`/`dsub`/`dmul`.  This is the reference numeric model; it is
what the conservation claim (C6), which is sensitive to the rounding of
accumulated sums, is settled against. -/
def processTransactionD (state : ReplayState) (txn : Txn) : ReplayState :=
  let quantity : ℚ := txn.quantity.getD 0
  let totalAmount : ℚ := txn.totalAmount
  match txn.type with
  | TxnType.BUY =>
    let newTotalShares := dadd state.totalShares quantity
    let newTotalInvested := dadd state.totalInvested totalAmount
    let newAvgCost := if newTotalShares = 0 then 0 else ddiv newTotalInvested newTotalShares
    { state with
        totalShares := newTotalShares
        totalInvested := newTotalInvested
        avgCost := newAvgCost }
  | TxnType.SELL =>
    let costRemoved := dmul state.avgCost quantity
    let proceeds := totalAmount
    let realizedProfitThisTxn := dsub proceeds costRemoved
    let newTotalShares := dsub state.totalShares quantity
    let newTotalInvested := dsub state.totalInvested costRemoved
    let newAvgCost := if newTotalShares = 0 then 0 else ddiv newTotalInvested newTotalShares
    { totalShares := newTotalShares
      totalInvested := newTotalInvested
      avgCost := newAvgCost
      realizedProfit := dadd state.realizedProfit realizedProfitThisTxn }
  | TxnType.DIVIDEND =>
    { state with realizedProfit := dadd state.realizedProfit totalAmount }

/-- The replay fold of `recomputeAggregates` under the fully rounded
arithmetic model. -/
def ledgerFoldD (txns : List Txn) : ReplayState :=
  txns.foldl processTransactionD zeroState

/-- The §4.1 transition rules exactly as the spec writes them, over explicit
`(kind, qty, amount)` arguments (the spec's `BUY(qty, amount)`,
`SELL(qty, amount)`, `INCOME(amount)`), for comparison with the source's
`processTransaction`.  Division is the Decimal division `ddiv`; on BUY the
spec writes `avgCost' = invested' / shares'` unconditionally, noting that
`shares' > 0` is invariant-guaranteed there. -/
def specTransition (s : ReplayState) (kind : TxnType) (qty amount : ℚ) : ReplayState :=
  match kind with
  | TxnType.BUY =>
    let shares' := s.totalShares + qty
    let invested' := s.totalInvested + amount
    { totalShares := shares'
      totalInvested := invested'
      avgCost := ddiv invested' shares'
      realizedProfit := s.realizedProfit }
  | TxnType.SELL =>
    let costRemoved := s.avgCost * qty
    let thisRealized := amount - costRemoved
    let shares' := s.totalShares - qty
    let invested' := s.totalInvested - costRemoved
    { totalShares := shares'
      totalInvested := invested'
      avgCost := if shares' ≠ 0 then ddiv invested' shares' else 0
      realizedProfit := s.realizedProfit + thisRealized }
  | TxnType.DIVIDEND =>
    { s with realizedProfit := s.realizedProfit + amount }

/-- The value `recomputeAllAggregates` returns to its caller
(src/unnamed/part_003, line 176): a single `message` string.  `attempted`
records, in order, the stock ids the loop invoked `recomputeAggregates` on —
the loop's only per-stock observable. -/
structure BatchResult where
  attempted : List ℕ
  message : String
deriving DecidableEq, Repr

/-- The `for (const stock of allStocks)` loop of `recomputeAllAggregates`
(src/unnamed/part_003, lines 168–174): each id is tried; a rejection is
caught by the `try/catch` (which only logs) and the loop continues.
`outcome` abstracts whether `recomputeAggregates(stock.id)` resolves or
rejects for each id. -/
def recomputeAllLoop (outcome : ℕ → Except String Unit) : List ℕ → List ℕ
  | [] => []
  | sid :: rest =>
    match outcome sid with
    | Except.ok _ => sid :: recomputeAllLoop outcome rest
    | Except.error _ => sid :: recomputeAllLoop outcome rest

/-- Embedding of `recomputeAllAggregates` (src/unnamed/part_003, lines 161–177): run the
loop over all known stocks, then return
`{ message: "Recomputed aggregates for <n> stocks" }` where `n` is the total
number of stocks. -/
def recomputeAllAggregates (stocks : List ℕ) (outcome : ℕ → Except String Unit) :
    BatchResult :=
  { attempted := recomputeAllLoop outcome stocks
    message := "Recomputed aggregates for " ++ toString stocks.length ++ " stocks" }

/-- The slice of the database the aggregate functions touch: the registered
instruments (`stocks` table ids), the transaction log (kept in the
`ORDER BY date ASC, createdAt ASC` order every replay query uses), and the
`stockAggregates` rows, keyed by stock id. -/
structure DB where
  stocks : List ℕ
  txns : List Txn
  aggregates : List (ℕ × ReplayState)
deriving DecidableEq, Repr

/-- Embedding of `recomputeAggregates` (src/unnamed/part_003, lines 274–334): select the
instrument's transactions in replay order, fold `processTransaction` from the
zero state, then insert a fresh `stockAggregates` row if none exists for the
id, else overwrite the existing row.  Note that the source performs no lookup
of the id in the `stocks` table. -/
def recomputeAggregates (db : DB) (sid : ℕ) : DB :=
  let txnsFor := db.txns.filter (fun t => t.stockId == sid)
  let state := txnsFor.foldl processTransaction zeroState
  match db.aggregates.find? (fun a => a.1 == sid) with
  | none => { db with aggregates := db.aggregates ++ [(sid, state)] }
  | some _ =>
    { db with aggregates := db.aggregates.map (fun a => if a.1 == sid then (sid, state) else a) }

/-- Embedding of `getStockAggregates` (src/unnamed/part_003, lines 388–394): the first
`stockAggregates` row with the given stock id, or `none` (the source's
`null`) when there is none. -/
def getStockAggregates (db : DB) (sid : ℕ) : Option (ℕ × ReplayState) :=
  db.aggregates.find? (fun a => a.1 == sid)

/-- The per-instrument record the `daywise` report keeps in its `stockStates`
map (src/server/routes/reports.ts, lines 32–36): only the three fields
`totalShares`, `totalInvested`, `avgCost` — `realizedProfit` is not stored. -/
structure PriceState where
  totalShares : ℚ
  totalInvested : ℚ
  avgCost : ℚ
deriving DecidableEq, Repr

/-- One state advance of the `daywise` replay (reports.ts, lines 84–96):
rebuild a full `ReplayState` with `realizedProfit := 0`, run the ledger's
`processTransaction`, keep the three stored fields. -/
def daywiseStep (st : PriceState) (t : Txn) : PriceState :=
  let currentState : ReplayState :=
    { totalShares := st.totalShares
      totalInvested := st.totalInvested
      avgCost := st.avgCost
      realizedProfit := 0 }
  let newState := processTransaction currentState t
  { totalShares := newState.totalShares
    totalInvested := newState.totalInvested
    avgCost := newState.avgCost }

/-- Scale a positive rational into `[1, 2)` (binary analogue of
`decExpAux`), for the binary64 rounding below. -/
def binExpAux (fuel : ℕ) (a : ℚ) (e : ℤ) : ℚ × ℤ :=
  if fuel = 0 then (a, e)
  else if a < 1 then binExpAux (fuel - 1) (a * 2) (e - 1)
  else if 2 ≤ a then binExpAux (fuel - 1) (a / 2) (e + 1)
  else (a, e)
termination_by fuel
decreasing_by all_goals omega

/-- The exact rational value of the IEEE-754 binary64 (JavaScript `number`)
nearest to `q`: round the significand to 53 bits, nearest, ties to even.
This is the value `parseFloat` produces from the exact decimal string of `q`,
and the rounding JavaScript applies to every `number` arithmetic result.
(Overflow and subnormals, irrelevant at database magnitudes, are not
modelled.) -/
def fl (q : ℚ) : ℚ :=
  if q = 0 then 0
  else
    let s : ℚ := if q < 0 then -1 else 1
    let p := binExpAux 5000 |q| 0
    let x := p.1 * 2 ^ (52 : ℕ)
    let n : ℤ := ⌊x⌋
    let m : ℤ :=
      if x - n < 1 / 2 then n
      else if 1 / 2 < x - n then n + 1
      else if n % 2 = 0 then n else n + 1
    s * (m : ℚ) * (2 : ℚ) ^ (p.2 - 52)

/-- JavaScript `number` addition: the exact sum, rounded back to binary64. -/
def fladd (a b : ℚ) : ℚ := fl (a + b)

/-- The `daywise` replay loop (src/server/routes/reports.ts, lines 39–97),
embedded over the globally ordered transaction list it queries
(`date ≤ to`, `ORDER BY date ASC, createdAt ASC`).  It threads
* `states` — the lazily-zero-initialised `stockStates` map (modelled as a
  total map defaulting to the zero `PriceState`), and
* `buckets` — the `profitByDate` map of `number`s (modelled as a total map
  date ↦ bucket value, defaulting to 0):
  for an in-range SELL with non-null quantity, the decimal profit
  `proceeds - avgCost * qty` is converted by `parseFloat` to a binary64 and
  added to the date's bucket with JavaScript `+=`; for an in-range DIVIDEND,
  `parseFloat(totalAmount)` is added the same way.  BUYs never touch a
  bucket.  The `losses` detail array (a projection of the same numbers) is
  not modelled; no claim depends on it.
The state map is advanced by `daywiseStep` on every transaction, in-range or
not.  The source never reads the `stockAggregates` table here: accordingly
the embedding's only data input is the transaction list. -/
def daywiseRun (fromD toD : ℕ) :
    List Txn → (ℕ → PriceState) → (ℕ → ℚ) → ((ℕ → PriceState) × (ℕ → ℚ))
  | [], states, buckets => (states, buckets)
  | t :: rest, states, buckets =>
    let st := states t.stockId
    let inRange : Bool := decide (fromD ≤ t.date) && decide (t.date ≤ toD)
    let buckets' : ℕ → ℚ :=
      match t.type, t.quantity with
      | TxnType.SELL, some qty =>
        if inRange then
          let proceeds := t.totalAmount
          let costBasis := st.avgCost * qty
          let profit := proceeds - costBasis
          let profitValue := fl profit
          fun d => if d = t.date then fladd (buckets t.date) profitValue else buckets d
        else buckets
      | TxnType.DIVIDEND, _ =>
        if inRange then
          let dividendAmount := fl t.totalAmount
          fun d => if d = t.date then fladd (buckets t.date) dividendAmount else buckets d
        else buckets
      | _, _ => buckets
    let states' : ℕ → PriceState :=
      fun i => if i = t.stockId then daywiseStep st t else states i
    daywiseRun fromD toD rest states' buckets'

/-- The zero `PriceState` the `daywise` loop initialises a stock's entry
with. -/
def zeroPrice : PriceState :=
  { totalShares := 0, totalInvested := 0, avgCost := 0 }

/-- Spec-side sum for the §8 conservation property: the sum of the
`totalAmount`s of the BUY transactions of a list. -/
def buySum : List Txn → ℚ
  | [] => 0
  | t :: rest => (if t.type = TxnType.BUY then t.totalAmount else 0) + buySum rest

/-- Spec-side sum for the §8 conservation property: the (mathematically
exact) sum of the `costRemoved` values of the SELL transactions of a list —
each value computed, as the spec demands, from the average cost *at the
moment of that sale* (`dmul s.avgCost qty`, the engine's own decimal product)
in the fully rounded replay that starts from `s`. -/
def costRemovedSumD (s : ReplayState) : List Txn → ℚ
  | [] => 0
  | t :: rest =>
    (if t.type = TxnType.SELL then dmul s.avgCost (t.quantity.getD 0) else 0)
      + costRemovedSumD (processTransactionD s t) rest

/-- Spec-side accumulation for the *corrected* conservation property: fold,
in history order, the BUY `totalAmount`s (added with the engine's decimal
`plus`) and the SELL `costRemoved` values (`avgCost` at the moment of that
sale times its quantity, subtracted with the engine's decimal `minus`) into
the accumulator `inv`; DIVIDEND events leave it untouched, and share-count
arithmetic never enters — the state `s` is threaded only to supply each
sale's average cost. -/
def dInvestedSum (inv : ℚ) (s : ReplayState) : List Txn → ℚ
  | [] => inv
  | t :: rest =>
    dInvestedSum
      (match t.type with
       | TxnType.BUY => dadd inv t.totalAmount
       | TxnType.SELL => dsub inv (dmul s.avgCost (t.quantity.getD 0))
       | TxnType.DIVIDEND => inv)
      (processTransactionD s t) rest

/-! ## Theorems -/

/-- Dividing by 0 with `ddiv` gives 0 — the totalisation matching the
`isZero`-guarded resets in the source. -/
theorem ddiv_zero_den (x : ℚ) : ddiv x 0 = 0 := by
  simp [ddiv]

/-- Evaluation of the `decimal.js` division of 100 by 3 under the default 20-significant-digit
configuration: `33.333333333333333333`. -/
theorem ddiv_100_3 : ddiv 100 3 = 33333333333333333333 / 10 ^ 18 := by
  have h : decExpAux 2000 |(100 : ℚ) / 3| 0 = (10 / 3, 1) := by
    rw [show |(100 : ℚ) / 3| = 100 / 3 by norm_num]
    rw [decExpAux]; norm_num
    rw [decExpAux]; norm_num
  rw [ddiv, if_neg (by norm_num : ¬(3 : ℚ) = 0), roundSig20]
  rw [if_neg (by norm_num : ¬(100 : ℚ) / 3 = 0)]
  simp only [h]
  norm_num [Int.floor_eq_iff]

/-- C1: for every `ReplayState` and every transaction, `processTransaction`
computes exactly the §4.1 rules: on BUY it returns `shares + qty`,
`invested + amount` and `avgCost = invested' / shares'`; on SELL it removes
`avgCost * qty` (the average cost in the *incoming* state), realises
`amount - costRemoved`, and resets `avgCost` to exactly 0 when `shares' = 0`;
on INCOME/DIVIDEND it adds `amount` to `realizedProfit` and leaves the other
fields unchanged.  Stated as equality with `specTransition`, the transition
written from the spec's words; the second conjunct covers the INCOME shape
with an absent quantity. -/
theorem c1_processTransaction_matches_spec :
    ∀ (s : ReplayState) (sid d c : ℕ) (ty : TxnType) (q amt : ℚ),
      processTransaction s ⟨sid, ty, d, some q, amt, c⟩ = specTransition s ty q amt
      ∧ processTransaction s ⟨sid, TxnType.DIVIDEND, d, none, amt, c⟩ =
          specTransition s TxnType.DIVIDEND 0 amt := by
  intro s sid d c ty q amt
  constructor
  · cases ty
    · by_cases h : s.totalShares + q = 0
      · simp [processTransaction, specTransition, h, ddiv_zero_den]
      · simp [processTransaction, specTransition, h]
    · by_cases h : s.totalShares - q = 0
      · simp [processTransaction, specTransition, h]
      · simp [processTransaction, specTransition, h]
    · simp [processTransaction, specTransition]
  · simp [processTransaction, specTransition]

/-- C10: a DIVIDEND transaction — even one carrying a (malformed) non-null
quantity — leaves `totalShares`, `totalInvested` and `avgCost` unchanged and
adds exactly `totalAmount` to `realizedProfit`: the DIVIDEND branch of
`processTransaction` never reads the quantity. -/
theorem c10_dividend_ignores_quantity :
    ∀ (s : ReplayState) (sid d c : ℕ) (qOpt : Option ℚ) (amt : ℚ),
      (processTransaction s ⟨sid, TxnType.DIVIDEND, d, qOpt, amt, c⟩).totalShares
          = s.totalShares
      ∧ (processTransaction s ⟨sid, TxnType.DIVIDEND, d, qOpt, amt, c⟩).totalInvested
          = s.totalInvested
      ∧ (processTransaction s ⟨sid, TxnType.DIVIDEND, d, qOpt, amt, c⟩).avgCost
          = s.avgCost
      ∧ (processTransaction s ⟨sid, TxnType.DIVIDEND, d, qOpt, amt, c⟩).realizedProfit
          = s.realizedProfit + amt := by
  intro s sid d c qOpt amt
  simp [processTransaction]

/-- C9: a SELL whose quantity exceeds the current `totalShares` is not
rejected: the SELL transition of §4.1 is applied unchanged (`processTransaction`
has no error outcome at all — its codomain is `ReplayState`), the new share
count is `shares - qty` and is negative, and any surrounding fold simply
continues with the resulting state. -/
theorem c9_oversell_not_rejected :
    ∀ (s : ReplayState) (sid d c : ℕ) (q amt : ℚ),
      s.totalShares < q →
      processTransaction s ⟨sid, TxnType.SELL, d, some q, amt, c⟩ =
          specTransition s TxnType.SELL q amt
      ∧ (processTransaction s ⟨sid, TxnType.SELL, d, some q, amt, c⟩).totalShares
          = s.totalShares - q
      ∧ (processTransaction s ⟨sid, TxnType.SELL, d, some q, amt, c⟩).totalShares < 0
      ∧ ∀ (pre post : List Txn),
          ledgerFold (pre ++ ⟨sid, TxnType.SELL, d, some q, amt, c⟩ :: post) =
            List.foldl processTransaction
              (processTransaction (ledgerFold pre) ⟨sid, TxnType.SELL, d, some q, amt, c⟩)
              post := by
  intro s sid d c q amt h
  refine ⟨?_, ?_, ?_, ?_⟩
  · by_cases hz : s.totalShares - q = 0
    · simp [processTransaction, specTransition, hz]
    · simp [processTransaction, specTransition, hz]
  · simp [processTransaction]
  · simp [processTransaction]
    linarith
  · intro pre post
    simp [ledgerFold, List.foldl_append]

/-- Witness for C9 at a concrete input: holding 1 share, a SELL of 2 shares
for 5 proceeds against average cost 10 is processed (it equals the spec's
SELL transition) and drives the share count to `1 - 2 < 0`. -/
theorem c9_oversell_witness :
    (⟨1, 10, 10, 0⟩ : ReplayState).totalShares < 2
    ∧ processTransaction ⟨1, 10, 10, 0⟩ ⟨1, TxnType.SELL, 0, some 2, 5, 0⟩ =
        specTransition ⟨1, 10, 10, 0⟩ TxnType.SELL 2 5
    ∧ (processTransaction ⟨1, 10, 10, 0⟩ ⟨1, TxnType.SELL, 0, some 2, 5, 0⟩).totalShares
        = 1 - 2
    ∧ (processTransaction ⟨1, 10, 10, 0⟩ ⟨1, TxnType.SELL, 0, some 2, 5, 0⟩).totalShares < 0 :=
  ⟨by norm_num,
   (c9_oversell_not_rejected ⟨1, 10, 10, 0⟩ 1 0 0 2 5 (by norm_num)).1,
   (c9_oversell_not_rejected ⟨1, 10, 10, 0⟩ 1 0 0 2 5 (by norm_num)).2.1,
   (c9_oversell_not_rejected ⟨1, 10, 10, 0⟩ 1 0 0 2 5 (by norm_num)).2.2.1⟩

/-- C2 (evaluation at the failing inputs): nothing in the engine rejects a
BUY/SELL with a null, zero or negative quantity.  `processTransaction` has no
error outcome; line 349 of src/unnamed/part_003 coerces a null quantity to 0,
and the fold completes with the silently defaulted result in each of the
three fault classes (null, zero, negative). -/
theorem c2_invalid_quantity_fold_completes :
    ledgerFold [⟨1, TxnType.BUY, 0, none, 100, 0⟩] =
      { totalShares := 0, totalInvested := 100, avgCost := 0, realizedProfit := 0 }
    ∧ ledgerFold [⟨1, TxnType.BUY, 0, some 0, 100, 0⟩] =
      { totalShares := 0, totalInvested := 100, avgCost := 0, realizedProfit := 0 }
    ∧ ledgerFold [⟨1, TxnType.SELL, 0, some (-5), 40, 0⟩] =
      { totalShares := 5, totalInvested := 0, avgCost := 0, realizedProfit := 40 } := by
  refine ⟨?_, ?_, ?_⟩ <;>
    simp [ledgerFold, zeroState, processTransaction, ddiv, roundSig20]

/-- Evaluation: 3 has one significant digit, so the decimal rounding leaves
it unchanged. -/
theorem roundSig20_three : roundSig20 (3 : ℚ) = 3 := by
  have hb : decExpAux 2000 |(3 : ℚ)| 0 = (3, 0) := by
    rw [show |(3 : ℚ)| = 3 by norm_num]
    rw [decExpAux]; norm_num
  simp only [roundSig20, hb]
  norm_num [Int.floor_eq_iff]

/-- Evaluation: 100 is unchanged by the decimal rounding. -/
theorem roundSig20_hundred : roundSig20 (100 : ℚ) = 100 := by
  have hb : decExpAux 2000 |(100 : ℚ)| 0 = (1, 2) := by
    rw [show |(100 : ℚ)| = 100 by norm_num]
    rw [decExpAux]; norm_num
    rw [decExpAux]; norm_num
    rw [decExpAux]; norm_num
  simp only [roundSig20, hb]
  norm_num [Int.floor_eq_iff]

/-- Evaluation: 1 is unchanged by the decimal rounding. -/
theorem roundSig20_one : roundSig20 (1 : ℚ) = 1 := by
  have hb : decExpAux 2000 |(1 : ℚ)| 0 = (1, 0) := by
    rw [show |(1 : ℚ)| = 1 by norm_num]
    rw [decExpAux]; norm_num
  simp only [roundSig20, hb]
  norm_num [Int.floor_eq_iff]

/-- Evaluation: `99.999999999999999999` has exactly 20 significant digits, so
the decimal rounding leaves it unchanged. -/
theorem roundSig20_cost : roundSig20 (99999999999999999999 / 10 ^ 18 : ℚ)
    = 99999999999999999999 / 10 ^ 18 := by
  have hb : decExpAux 2000 |(99999999999999999999 : ℚ) / 10 ^ 18| 0
      = (99999999999999999999 / 10 ^ 19, 1) := by
    rw [show |(99999999999999999999 : ℚ) / 10 ^ 18|
          = 99999999999999999999 / 10 ^ 18 by norm_num]
    rw [decExpAux]; norm_num
    rw [decExpAux]; norm_num
  simp only [roundSig20, hb]
  norm_num [Int.floor_eq_iff]

/-- Evaluation: `10.000000000000000001` has exactly 20 significant digits, so
the decimal rounding leaves it unchanged. -/
theorem roundSig20_profit : roundSig20 (10000000000000000001 / 10 ^ 18 : ℚ)
    = 10000000000000000001 / 10 ^ 18 := by
  have hb : decExpAux 2000 |(10000000000000000001 : ℚ) / 10 ^ 18| 0
      = (10000000000000000001 / 10 ^ 19, 1) := by
    rw [show |(10000000000000000001 : ℚ) / 10 ^ 18|
          = 10000000000000000001 / 10 ^ 18 by norm_num]
    rw [decExpAux]; norm_num
    rw [decExpAux]; norm_num
  simp only [roundSig20, hb]
  norm_num [Int.floor_eq_iff]

/-- Evaluation: the residual `10⁻¹⁸` has one significant digit, so the
decimal rounding leaves it unchanged. -/
theorem roundSig20_residual : roundSig20 (1 / 10 ^ 18 : ℚ) = 1 / 10 ^ 18 := by
  have hb : decExpAux 2000 |(1 : ℚ) / 10 ^ 18| 0 = (1, -18) := by
    rw [show |(1 : ℚ) / 10 ^ 18| = 1 / 10 ^ 18 by norm_num]
    rw [decExpAux]; norm_num
    rw [decExpAux]; norm_num
    rw [decExpAux]; norm_num
    rw [decExpAux]; norm_num
    rw [decExpAux]; norm_num
    rw [decExpAux]; norm_num
    rw [decExpAux]; norm_num
    rw [decExpAux]; norm_num
    rw [decExpAux]; norm_num
    rw [decExpAux]; norm_num
    rw [decExpAux]; norm_num
    rw [decExpAux]; norm_num
    rw [decExpAux]; norm_num
    rw [decExpAux]; norm_num
    rw [decExpAux]; norm_num
    rw [decExpAux]; norm_num
    rw [decExpAux]; norm_num
    rw [decExpAux]; norm_num
    rw [decExpAux]; norm_num
  simp only [roundSig20, hb]
  norm_num [Int.floor_eq_iff]

/-- Evaluation of the rounding event at the heart of the C6 counterexample:
the exact sum `100.000000000000000001` has 21 significant digits, and the
decimal.js rounding truncates it to exactly 100 (the dropped digit is 1, so
`ROUND_HALF_UP` rounds down). -/
theorem roundSig20_absorbed : roundSig20 (100000000000000000001 / 10 ^ 18 : ℚ) = 100 := by
  have hb : decExpAux 2000 |(100000000000000000001 : ℚ) / 10 ^ 18| 0
      = (100000000000000000001 / 10 ^ 20, 2) := by
    rw [show |(100000000000000000001 : ℚ) / 10 ^ 18|
          = 100000000000000000001 / 10 ^ 18 by norm_num]
    rw [decExpAux]; norm_num
    rw [decExpAux]; norm_num
    rw [decExpAux]; norm_num
  simp only [roundSig20, hb]
  norm_num [Int.floor_eq_iff]

/-- The invested component of the fully rounded replay, from any start
state: it is exactly the in-order decimal accumulation of the BUY amounts and
`costRemoved` values — share-count arithmetic and DIVIDENDs never enter. -/
theorem foldD_totalInvested (l : List Txn) :
    ∀ s : ReplayState,
      (l.foldl processTransactionD s).totalInvested = dInvestedSum s.totalInvested s l := by
  induction l with
  | nil => intro s; simp [dInvestedSum]
  | cons t rest ih =>
    intro s
    simp only [List.foldl_cons]
    rw [ih (processTransactionD s t)]
    cases h : t.type <;> simp [processTransactionD, dInvestedSum, h]

/-- C6 (counterexample): on the history BUY(3 shares, 100); SELL(3, 110);
BUY(1 share, 100) — every value a `DECIMAL(18,_)` column can hold — the
engine's `totalInvested` is exactly 100: the SELL leaves the rounding
residual `10⁻¹⁸` (the average cost `100/3` was rounded to 20 significant
digits) and the next BUY's `Decimal.plus` rounds the 21-significant-digit
exact sum `100.000000000000000001` back to 100.  The claimed exact sum —
BUY amounts (200) minus the `costRemoved` values (`99.999999999999999999`) —
is `100.000000000000000001 ≠ 100`, so the exact conservation equality fails
on the program. -/
theorem c6_counterexample :
    (ledgerFoldD [⟨1, TxnType.BUY, 0, some 3, 100, 0⟩,
        ⟨1, TxnType.SELL, 1, some 3, 110, 1⟩,
        ⟨1, TxnType.BUY, 2, some 1, 100, 2⟩]).totalInvested = 100
    ∧ buySum [⟨1, TxnType.BUY, 0, some 3, 100, 0⟩,
          ⟨1, TxnType.SELL, 1, some 3, 110, 1⟩,
          ⟨1, TxnType.BUY, 2, some 1, 100, 2⟩]
        - costRemovedSumD zeroState [⟨1, TxnType.BUY, 0, some 3, 100, 0⟩,
          ⟨1, TxnType.SELL, 1, some 3, 110, 1⟩,
          ⟨1, TxnType.BUY, 2, some 1, 100, 2⟩]
        = 100 + 1 / 10 ^ 18
    ∧ ¬ ((ledgerFoldD [⟨1, TxnType.BUY, 0, some 3, 100, 0⟩,
          ⟨1, TxnType.SELL, 1, some 3, 110, 1⟩,
          ⟨1, TxnType.BUY, 2, some 1, 100, 2⟩]).totalInvested
        = buySum [⟨1, TxnType.BUY, 0, some 3, 100, 0⟩,
            ⟨1, TxnType.SELL, 1, some 3, 110, 1⟩,
            ⟨1, TxnType.BUY, 2, some 1, 100, 2⟩]
          - costRemovedSumD zeroState [⟨1, TxnType.BUY, 0, some 3, 100, 0⟩,
            ⟨1, TxnType.SELL, 1, some 3, 110, 1⟩,
            ⟨1, TxnType.BUY, 2, some 1, 100, 2⟩]) := by
  have e11 : dadd (0 : ℚ) 3 = 3 := by
    simp only [dadd, zero_add]; exact roundSig20_three
  have e12 : dadd (0 : ℚ) 100 = 100 := by
    simp only [dadd, zero_add]; exact roundSig20_hundred
  have e21 : dmul (33333333333333333333 / 10 ^ 18 : ℚ) 3
      = 99999999999999999999 / 10 ^ 18 := by
    simp only [dmul]
    rw [show (33333333333333333333 / 10 ^ 18 : ℚ) * 3
          = 99999999999999999999 / 10 ^ 18 by norm_num]
    exact roundSig20_cost
  have e22 : dsub (110 : ℚ) (99999999999999999999 / 10 ^ 18)
      = 10000000000000000001 / 10 ^ 18 := by
    simp only [dsub]
    rw [show (110 : ℚ) - 99999999999999999999 / 10 ^ 18
          = 10000000000000000001 / 10 ^ 18 by norm_num]
    exact roundSig20_profit
  have e23 : dsub (3 : ℚ) 3 = 0 := by
    simp only [dsub]
    rw [show (3 : ℚ) - 3 = 0 by norm_num]
    simp [roundSig20]
  have e24 : dsub (100 : ℚ) (99999999999999999999 / 10 ^ 18) = 1 / 10 ^ 18 := by
    simp only [dsub]
    rw [show (100 : ℚ) - 99999999999999999999 / 10 ^ 18 = 1 / 10 ^ 18 by norm_num]
    exact roundSig20_residual
  have e25 : dadd (0 : ℚ) (10000000000000000001 / 10 ^ 18)
      = 10000000000000000001 / 10 ^ 18 := by
    simp only [dadd, zero_add]; exact roundSig20_profit
  have e31 : dadd (0 : ℚ) 1 = 1 := by
    simp only [dadd, zero_add]; exact roundSig20_one
  have e32 : dadd (1 / 10 ^ 18 : ℚ) 100 = 100 := by
    simp only [dadd]
    rw [show (1 / 10 ^ 18 : ℚ) + 100 = 100000000000000000001 / 10 ^ 18 by norm_num]
    exact roundSig20_absorbed
  have e33 : ddiv (100 : ℚ) 1 = 100 := by
    rw [ddiv, if_neg (by norm_num : ¬(1 : ℚ) = 0)]
    rw [show (100 : ℚ) / 1 = 100 by norm_num]
    exact roundSig20_hundred
  have st1 : processTransactionD zeroState ⟨1, TxnType.BUY, 0, some 3, 100, 0⟩
      = ⟨3, 100, 33333333333333333333 / 10 ^ 18, 0⟩ := by
    simp only [processTransactionD, zeroState, Option.getD_some]
    rw [e11, e12, if_neg (by norm_num : ¬(3 : ℚ) = 0), ddiv_100_3]
  have st2 : processTransactionD ⟨3, 100, 33333333333333333333 / 10 ^ 18, 0⟩
        ⟨1, TxnType.SELL, 1, some 3, 110, 1⟩
      = ⟨0, 1 / 10 ^ 18, 0, 10000000000000000001 / 10 ^ 18⟩ := by
    simp only [processTransactionD, Option.getD_some]
    rw [e21, e22, e23, e24, e25]
    norm_num
  have st3 : processTransactionD ⟨0, 1 / 10 ^ 18, 0, 10000000000000000001 / 10 ^ 18⟩
        ⟨1, TxnType.BUY, 2, some 1, 100, 2⟩
      = ⟨1, 100, 100, 10000000000000000001 / 10 ^ 18⟩ := by
    simp only [processTransactionD, Option.getD_some]
    rw [e31, e32]
    norm_num [e33]
  have h1 : (ledgerFoldD [⟨1, TxnType.BUY, 0, some 3, 100, 0⟩,
      ⟨1, TxnType.SELL, 1, some 3, 110, 1⟩,
      ⟨1, TxnType.BUY, 2, some 1, 100, 2⟩]).totalInvested = 100 := by
    simp only [ledgerFoldD, List.foldl_cons, List.foldl_nil]
    rw [st1, st2, st3]
  have hb : buySum [⟨1, TxnType.BUY, 0, some 3, 100, 0⟩,
      ⟨1, TxnType.SELL, 1, some 3, 110, 1⟩,
      ⟨1, TxnType.BUY, 2, some 1, 100, 2⟩] = 200 := by
    simp [buySum]
    norm_num
  have hc : costRemovedSumD zeroState [⟨1, TxnType.BUY, 0, some 3, 100, 0⟩,
      ⟨1, TxnType.SELL, 1, some 3, 110, 1⟩,
      ⟨1, TxnType.BUY, 2, some 1, 100, 2⟩] = 99999999999999999999 / 10 ^ 18 := by
    simp [costRemovedSumD, Option.getD_some, st1, e21]
  have h2 : buySum [⟨1, TxnType.BUY, 0, some 3, 100, 0⟩,
        ⟨1, TxnType.SELL, 1, some 3, 110, 1⟩,
        ⟨1, TxnType.BUY, 2, some 1, 100, 2⟩]
      - costRemovedSumD zeroState [⟨1, TxnType.BUY, 0, some 3, 100, 0⟩,
        ⟨1, TxnType.SELL, 1, some 3, 110, 1⟩,
        ⟨1, TxnType.BUY, 2, some 1, 100, 2⟩]
      = 100 + 1 / 10 ^ 18 := by
    rw [hb, hc]
    norm_num
  exact ⟨h1, h2, by rw [h1, h2]; norm_num⟩

/-- C6 (amended): at every prefix of the ordered history, `totalInvested`
equals the BUY `totalAmount`s and the SELL `costRemoved` values (the average
cost at the moment of each sale times its quantity) accumulated in history
order with the engine's 20-significant-digit decimal addition and
subtraction — so the invested figure still depends on nothing but those
contributions (never on share-count arithmetic), and INCOME events contribute
nothing (the DIVIDEND arm of `dInvestedSum` leaves the accumulator
untouched); only the *exactness* of the sum fails, because `decimal.js`
rounds each accumulation step. -/
theorem c6_conservation_amended :
    ∀ (txns : List Txn) (n : ℕ),
      (ledgerFoldD (txns.take n)).totalInvested
        = dInvestedSum 0 zeroState (txns.take n) := by
  intro txns n
  have h := foldD_totalInvested (txns.take n) zeroState
  simpa [ledgerFoldD, zeroState] using h

/-- The `recomputeAllAggregates` loop reaches every stock id, in order,
whatever the per-instrument outcomes: the `try/catch` swallows failures. -/
theorem recomputeAllLoop_eq_self (outcome : ℕ → Except String Unit) :
    ∀ l : List ℕ, recomputeAllLoop outcome l = l := by
  intro l
  induction l with
  | nil => rfl
  | cons sid rest ih =>
    cases h : outcome sid <;> simp [recomputeAllLoop, h, ih]

/-- C4 (counterexample): over stocks `[1, 2]`, a run in which recompute fails
on stock 1 returns *exactly* the same value as a run in which everything
succeeds — and its message names the total count 2 — so the returned value
carries neither the count of successful recomputations nor any per-instrument
error record. -/
theorem c4_counterexample :
    recomputeAllAggregates [1, 2]
        (fun i => if i = 1 then Except.error "boom" else Except.ok ())
      = recomputeAllAggregates [1, 2] (fun _ => Except.ok ())
    ∧ (recomputeAllAggregates [1, 2]
        (fun i => if i = 1 then Except.error "boom" else Except.ok ())).message
      = "Recomputed aggregates for 2 stocks" := by
  constructor
  · simp [recomputeAllAggregates, recomputeAllLoop]
  · rfl

/-- C4 (amended): `recomputeAllAggregates` iterates over every known
instrument invoking recompute on each, and a failure for one instrument is
caught so the remaining instruments are still processed; but the value
returned to the caller is only a message naming the *total* number of
instruments — identical whatever the outcomes — with no success count and no
per-instrument error list. -/
theorem c4_recomputeAll_amended :
    ∀ (stocks : List ℕ) (outcome outcome2 : ℕ → Except String Unit),
      (recomputeAllAggregates stocks outcome).attempted = stocks
      ∧ (recomputeAllAggregates stocks outcome).message
          = "Recomputed aggregates for " ++ toString stocks.length ++ " stocks"
      ∧ recomputeAllAggregates stocks outcome = recomputeAllAggregates stocks outcome2 := by
  intro stocks o o2
  refine ⟨recomputeAllLoop_eq_self o stocks, rfl, ?_⟩
  simp [recomputeAllAggregates, recomputeAllLoop_eq_self]

/-- C8 (counterexample): on an empty database — id 5 is not a registered
instrument — `recomputeAggregates` surfaces nothing: it folds the empty
history and inserts a fresh zero aggregate row for the unknown id. -/
theorem c8_counterexample :
    recomputeAggregates ⟨[], [], []⟩ 5 = ⟨[], [], [(5, zeroState)]⟩
    ∧ getStockAggregates (recomputeAggregates ⟨[], [], []⟩ 5) 5 = some (5, zeroState)
    ∧ ¬ (5 ∈ (⟨[], [], []⟩ : DB).stocks) := by
  refine ⟨?_, ?_, ?_⟩ <;> simp [recomputeAggregates, getStockAggregates]

/-- C8 (amended): `getStockAggregates` surfaces not-found to the caller as
`none` when no aggregate row exists for the id; `recomputeAggregates`,
however, performs no existence check — called on an id with no transactions
and no aggregate row it folds the empty history and creates a zero aggregate
row for that id. -/
theorem c8_amended :
    ∀ (db : DB) (sid : ℕ),
      (db.aggregates.find? (fun a => a.1 == sid) = none →
        getStockAggregates db sid = none)
      ∧ (db.txns.filter (fun t => t.stockId == sid) = [] →
         db.aggregates.find? (fun a => a.1 == sid) = none →
         recomputeAggregates db sid =
           { db with aggregates := db.aggregates ++ [(sid, zeroState)] }) := by
  intro db sid
  constructor
  · intro h
    simp [getStockAggregates, h]
  · intro ht hf
    simp [recomputeAggregates, ht, hf]

/-- Witness for C8 (amended) at the empty database and the unregistered id
5: the aggregate lookup returns `none`, and recompute inserts the zero row
`(5, zeroState)`. -/
theorem c8_witness :
    getStockAggregates ⟨[], [], []⟩ 5 = none
    ∧ recomputeAggregates ⟨[], [], []⟩ 5 =
        { (⟨[], [], []⟩ : DB) with aggregates := [] ++ [(5, zeroState)] } :=
  ⟨(c8_amended ⟨[], [], []⟩ 5).1 rfl, (c8_amended ⟨[], [], []⟩ 5).2 rfl rfl⟩

/-- Projection of a full replay state onto the three fields the `daywise`
report stores per instrument. -/
def toPrice (s : ReplayState) : PriceState :=
  { totalShares := s.totalShares, totalInvested := s.totalInvested, avgCost := s.avgCost }

/-- The share/invested/average-cost components of `processTransaction` do not
read the incoming `realizedProfit`: zeroing it (as the `daywise` loop does
when it rebuilds `currentState`) cannot change them. -/
theorem processTransaction_realized_frame (s : ReplayState) (x : ℚ) (t : Txn) :
    (processTransaction { s with realizedProfit := x } t).totalShares
        = (processTransaction s t).totalShares
    ∧ (processTransaction { s with realizedProfit := x } t).totalInvested
        = (processTransaction s t).totalInvested
    ∧ (processTransaction { s with realizedProfit := x } t).avgCost
        = (processTransaction s t).avgCost := by
  cases h : t.type <;> simp [processTransaction, h]

/-- One `daywise` state advance equals the ledger transition, projected. -/
theorem daywiseStep_eq_processTransaction (ps : ReplayState) (t : Txn) :
    daywiseStep (toPrice ps) t = toPrice (processTransaction ps t) := by
  have h := processTransaction_realized_frame ps 0 t
  simp only [daywiseStep, toPrice, PriceState.mk.injEq]
  exact ⟨h.1, h.2.1, h.2.2⟩

/-- Folding `daywiseStep` is the projection of folding `processTransaction`. -/
theorem foldl_daywiseStep_eq (l : List Txn) :
    ∀ ps : ReplayState,
      l.foldl daywiseStep (toPrice ps) = toPrice (l.foldl processTransaction ps) := by
  induction l with
  | nil => intro ps; rfl
  | cons t rest ih =>
    intro ps
    simp only [List.foldl_cons, daywiseStep_eq_processTransaction]
    exact ih (processTransaction ps t)

/-- The `stockStates` entry the `daywise` loop holds for instrument `i` after
consuming a list is the `daywiseStep`-fold over exactly that instrument's
transactions of the list, whatever the date range and buckets. -/
theorem daywiseRun_states (fromD toD : ℕ) :
    ∀ (l : List Txn) (states : ℕ → PriceState) (buckets : ℕ → ℚ) (i : ℕ),
      (daywiseRun fromD toD l states buckets).1 i
        = (l.filter (fun t => t.stockId == i)).foldl daywiseStep (states i) := by
  intro l
  induction l with
  | nil => intro states buckets i; rfl
  | cons t rest ih =>
    intro states buckets i
    by_cases hi : i = t.stockId
    · subst hi
      simp [daywiseRun, ih, List.filter_cons]
    · simp [daywiseRun, ih, List.filter_cons, hi, Ne.symm hi]

/-- C3: for every date range, every transaction history (in the shared
`ORDER BY date ASC, createdAt ASC` order both engines query with), every
prefix of it and every instrument, the running state the `daywise` report
holds for that instrument — the state it uses to cost the next SELL — equals
the state the §4.1 ledger fold reaches on that instrument's transactions of
the prefix, replayed independently from zero with the same transition rules.
The embedded `daywiseRun`'s only data input is the transaction list: the
source's `daywise` queries only the `transactions` table for its replay and
never reads the cached `stockAggregates` row. -/
theorem c3_daywise_state_equals_ledger_fold :
    ∀ (fromD toD : ℕ) (txns : List Txn) (k i : ℕ) (buckets : ℕ → ℚ),
      (daywiseRun fromD toD (txns.take k) (fun _ => zeroPrice) buckets).1 i
        = toPrice (ledgerFold ((txns.take k).filter (fun t => t.stockId == i))) := by
  intro fromD toD txns k i buckets
  rw [daywiseRun_states]
  have hz : zeroPrice = toPrice zeroState := rfl
  rw [hz, foldl_daywiseStep_eq]
  rfl

/-- C5 (amended): from any state holding shares, a SELL of exactly
`totalShares` drives `totalShares` to exactly 0 and resets `avgCost` to
exactly 0; `totalInvested`, however, becomes
`totalInvested - avgCost * totalShares`, which is exactly 0 precisely when
`avgCost * totalShares` equals `totalInvested` — true when `avgCost` is the
exact quotient, but not when it is a rounded non-terminating quotient. -/
theorem c5_sell_all_amended :
    ∀ (s : ReplayState) (sid d c : ℕ) (amt : ℚ),
      0 < s.totalShares →
      (processTransaction s ⟨sid, TxnType.SELL, d, some s.totalShares, amt, c⟩).totalShares = 0
      ∧ (processTransaction s ⟨sid, TxnType.SELL, d, some s.totalShares, amt, c⟩).avgCost = 0
      ∧ (processTransaction s ⟨sid, TxnType.SELL, d, some s.totalShares, amt, c⟩).totalInvested
          = s.totalInvested - s.avgCost * s.totalShares
      ∧ (s.avgCost * s.totalShares = s.totalInvested →
          (processTransaction s
            ⟨sid, TxnType.SELL, d, some s.totalShares, amt, c⟩).totalInvested = 0) := by
  intro s sid d c amt h
  refine ⟨?_, ?_, ?_, ?_⟩
  · simp [processTransaction]
  · simp [processTransaction]
  · simp [processTransaction]
  · intro h2
    simp [processTransaction, h2]

/-- Witness for C5 (amended) at the repository's own test scenario (10 shares
bought for 1000, average cost exactly 100, sold in full for 1500): all three
fields land on exactly 0. -/
theorem c5_sell_all_witness :
    (0 : ℚ) < 10
    ∧ (processTransaction ⟨10, 1000, 100, 0⟩
        ⟨1, TxnType.SELL, 0, some 10, 1500, 0⟩).totalShares = 0
    ∧ (processTransaction ⟨10, 1000, 100, 0⟩
        ⟨1, TxnType.SELL, 0, some 10, 1500, 0⟩).avgCost = 0
    ∧ (processTransaction ⟨10, 1000, 100, 0⟩
        ⟨1, TxnType.SELL, 0, some 10, 1500, 0⟩).totalInvested = 0 := by
  have h := c5_sell_all_amended ⟨10, 1000, 100, 0⟩ 1 0 0 1500 (by norm_num)
  exact ⟨by norm_num, h.1, h.2.1, h.2.2.2 (by norm_num)⟩

/-- C5 (counterexample): the reachable state after BUY(3 shares, 100) has
`avgCost = ddiv 100 3`, a rounded non-terminating quotient; selling all 3
shares then zeroes `totalShares` and `avgCost` exactly but leaves the
residual `10⁻¹⁸` in `totalInvested` — refuting the claim that every field is
exactly 0 for every producing history. -/
theorem c5_counterexample :
    (ledgerFold [⟨1, TxnType.BUY, 0, some 3, 100, 0⟩]).totalShares = 3
    ∧ 0 < (ledgerFold [⟨1, TxnType.BUY, 0, some 3, 100, 0⟩]).totalShares
    ∧ (ledgerFold [⟨1, TxnType.BUY, 0, some 3, 100, 0⟩,
        ⟨1, TxnType.SELL, 1, some 3, 110, 1⟩]).totalShares = 0
    ∧ (ledgerFold [⟨1, TxnType.BUY, 0, some 3, 100, 0⟩,
        ⟨1, TxnType.SELL, 1, some 3, 110, 1⟩]).avgCost = 0
    ∧ (ledgerFold [⟨1, TxnType.BUY, 0, some 3, 100, 0⟩,
        ⟨1, TxnType.SELL, 1, some 3, 110, 1⟩]).totalInvested = 1 / 10 ^ 18
    ∧ (ledgerFold [⟨1, TxnType.BUY, 0, some 3, 100, 0⟩,
        ⟨1, TxnType.SELL, 1, some 3, 110, 1⟩]).totalInvested ≠ 0 := by
  refine ⟨?_, ?_, ?_, ?_, ?_, ?_⟩ <;>
    simp [ledgerFold, zeroState, processTransaction, ddiv_100_3] <;> norm_num

/-- The binary64 value `parseFloat` produces for the decimal `0.1`:
`0.1000000000000000055511151231257827…`, not `1/10`. -/
theorem fl_tenth : fl (1 / 10) = 3602879701896397 / 36028797018963968 := by
  have hb : binExpAux 5000 |(1 : ℚ) / 10| 0 = (8 / 5, -4) := by
    rw [show |(1 : ℚ) / 10| = 1 / 10 by norm_num]
    rw [binExpAux]; norm_num
    rw [binExpAux]; norm_num
    rw [binExpAux]; norm_num
    rw [binExpAux]; norm_num
    rw [binExpAux]; norm_num
  have hf : ⌊(8 / 5 : ℚ) * 2 ^ (52 : ℕ)⌋ = 7205759403792793 := by
    norm_num [Int.floor_eq_iff]
  simp only [fl, hb]
  norm_num [hf]

/-- Binary64 values are fixed points of the binary64 rounding (here at the
one value the C7 evaluation needs). -/
theorem fl_idem_tenth :
    fl (3602879701896397 / 36028797018963968) = 3602879701896397 / 36028797018963968 := by
  have hb : binExpAux 5000 |(3602879701896397 : ℚ) / 36028797018963968| 0 =
      (7205759403792794 / 2 ^ 52, -4) := by
    rw [show |(3602879701896397 : ℚ) / 36028797018963968|
          = 3602879701896397 / 36028797018963968 by norm_num]
    rw [binExpAux]; norm_num
    rw [binExpAux]; norm_num
    rw [binExpAux]; norm_num
    rw [binExpAux]; norm_num
    rw [binExpAux]; norm_num
  have hf : ⌊(7205759403792794 / 2 ^ 52 : ℚ) * 2 ^ (52 : ℕ)⌋ = 7205759403792794 := by
    norm_num [Int.floor_eq_iff]
  simp only [fl, hb]
  norm_num [hf]

/-- C7 (evaluation at the failing input): a single in-range DIVIDEND of the
decimal amount `0.1` leaves in its date bucket the binary64 value
`parseFloat("0.1") = 3602879701896397 / 2⁵⁵ ≠ 1/10`: the `daywise` report
accumulates its date buckets in binary floating point
(`parseFloat(...)` and JavaScript `number` `+=`, reports.ts lines 57–81),
not in the decimal arithmetic the claim requires.  (The ledger fold itself —
`processTransaction` — is all-decimal; the float conversion happens only in
the report's bucket accumulation.) -/
theorem c7_daywise_bucket_is_binary_float :
    (daywiseRun 0 10 [⟨1, TxnType.DIVIDEND, 5, none, 1 / 10, 0⟩]
        (fun _ => zeroPrice) (fun _ => 0)).2 5
      = 3602879701896397 / 36028797018963968
    ∧ (daywiseRun 0 10 [⟨1, TxnType.DIVIDEND, 5, none, 1 / 10, 0⟩]
        (fun _ => zeroPrice) (fun _ => 0)).2 5 ≠ 1 / 10 := by
  have hrun : (daywiseRun 0 10 [⟨1, TxnType.DIVIDEND, 5, none, 1 / 10, 0⟩]
      (fun _ => zeroPrice) (fun _ => 0)).2 5 = fladd 0 (fl (1 / 10)) := by
    simp [daywiseRun]
  rw [hrun, fladd, zero_add, fl_tenth, fl_idem_tenth]
  exact ⟨rfl, by norm_num⟩
